import Mathlib

/-
Verification development for the locator module
(common/lib/xmodule/xmodule/modulestore/locator.py).

The module defines structured identifiers over a versioned content
repository: CourseLocator, BlockUsageLocator, DescriptionLocator, and the
VersionTree history structure.  The embedding below translates the Python
source into Lean definitions:

* Python strings are `PyStr := List Char`; the value `none : Option PyStr`
  models Python `None`, `some s` a string value (possibly empty).
* Python attribute state is modelled by `Slot`: a Python instance attribute
  is either absent from the instance `__dict__` (so `getattr` falls back to
  the class-level default `None`), or assigned `None`, or assigned a value.
  This distinction is observable through `__eq__`, which compares instance
  `__dict__`s, so the embedding keeps it.
* Exceptions are modelled by `Except PyErr`; each constructor of `PyErr`
  stands for one exception class raised by the source.
* The external field-mapping parsers (`parse_url`, `parse_course_id`,
  `parse_block_ref`, from xmodule.modulestore.parsers) and the bson
  `ObjectId` type are not part of the source file; they are modelled from
  the specification's contracts (section 6 of the spec) and marked as such
  in their doc comments.
-/

/-- Python string, modelled as its list of characters. -/
abbrev PyStr := List Char

/-- Exception classes raised by the locator module.  `valueError` stands for
the `ValueError` raised when a version-guid string is rejected by ObjectId;
`assertionError` for a failed `assert`; `attributeError` for an access to a
missing attribute; `recursionError` models exhaustion of the recursion fuel
used to embed the unbounded recursion of `VersionTree.__init__`. -/
inductive PyErr
  | insufficientSpecification
  | overSpecification
  | valueError
  | assertionError
  | attributeError
  | recursionError
deriving DecidableEq, Repr

/-- State of one Python instance attribute that has a class-level default of
`None`: `unassigned` means the attribute is absent from the instance
`__dict__` (reads fall back to the class default `None`), `assignedNone`
means it was explicitly assigned `None`, `assigned a` that it was assigned
the value `a`. -/
inductive Slot (α : Type)
  | unassigned
  | assignedNone
  | assigned (a : α)
deriving DecidableEq, Repr

/-- Value produced by `getattr` for a slot: the assigned value, or `none`
for both an unassigned slot (class default `None`) and an assigned `None`. -/
def Slot.val {α : Type} : Slot α → Option α
  | .unassigned => none
  | .assignedNone => none
  | .assigned a => some a

/-- Slot state after `setattr` with a Python value (`None` or a value). -/
def Slot.ofOption {α : Type} : Option α → Slot α
  | none => .assignedNone
  | some a => .assigned a

/-- Python truthiness of an optional value, given truthiness of the
underlying values: `None` is falsy. -/
def pyTruthy {α : Type} (t : α → Bool) : Option α → Bool
  | none => false
  | some a => t a

/-- Python truthiness of a string: the empty string is falsy. -/
def strT (s : PyStr) : Bool := !s.isEmpty

/-- Modelled from the spec: the spec's VersionId contract (an opaque
identifier "rendered as a fixed-length hex string"; bson `ObjectId` in the
source, which is not under src/).  `hex` is the canonical string form. -/
structure ObjectId where
  hex : PyStr
deriving DecidableEq, Repr

/-- Python truthiness of an ObjectId: instances are always truthy. -/
def oidT (_ : ObjectId) : Bool := true

/-- Hexadecimal digit, either case. -/
def isHexDigit (c : Char) : Bool :=
  c.isDigit || (('a' ≤ c) && (c ≤ 'f')) || (('A' ≤ c) && (c ≤ 'F'))

/-- Modelled from the spec: constructing a VersionId from a string succeeds
exactly on a 24-character hex string (the 24-byte identifier's hex
rendering); the stored canonical form is lower-case, as `str(ObjectId(s))`
lower-cases.  A non-conforming string is rejected (`InvalidId`). -/
def ObjectId.ofStr (s : PyStr) : Option ObjectId :=
  if s.length = 24 && s.all isHexDigit then some ⟨s.map Char.toLower⟩ else none

/-- An ObjectId is canonical when its string form is a 24-character
lower-case hex string, i.e. when it could have been produced by
`ObjectId.ofStr`. -/
def ObjectId.canonical (o : ObjectId) : Bool :=
  o.hex.length = 24 && o.hex.all (fun c => isHexDigit c && (Char.toLower c = c))

/-- Character allowed in a word-shaped capture (revision, block): the \w
class of the grammar. -/
def isWordChar (c : Char) : Bool := c.isAlphanum || c = '_'

/-- Character allowed in a course-id capture: word characters plus the dot
separator of dotted course names such as edu.mit.eecs.6002x. -/
def isNameChar (c : Char) : Bool := isWordChar c || c = '.'

/-- Nonempty string of word characters. -/
def validWord (s : PyStr) : Bool := !s.isEmpty && s.all isWordChar

/-- Nonempty string of course-id characters. -/
def validName (s : PyStr) : Bool := !s.isEmpty && s.all isNameChar

/-- Optional capture that, when present, must be a valid word. -/
def optWord : Option PyStr → Bool
  | none => true
  | some s => validWord s

/-- Split a list at the first occurrence of `sep`: returns the part before
it and, when `sep` occurs, the part after it. -/
def splitFirst (sep : Char) : PyStr → PyStr × Option PyStr
  | [] => ([], none)
  | c :: cs =>
    if c = sep then ([], some cs)
    else
      let r := splitFirst sep cs
      (c :: r.1, r.2)

/-- Remove the given leading characters from a list; `none` when the list
does not start with them. -/
def stripLead : PyStr → PyStr → Option PyStr
  | [], s => some s
  | _ :: _, [] => none
  | c :: cs, d :: ds => if c = d then stripLead cs ds else none

/-- Scheme marker of locator URLs. -/
def edxPre : PyStr := ['e', 'd', 'x', ':', '/', '/']

/-- Fields captured from a course-id string by the external parser: the id,
an optional trailing revision (after a semicolon), and an optional trailing
block coordinate (after a hash). -/
structure CourseIdParse where
  id : PyStr
  revision : Option PyStr
  block : Option PyStr
deriving DecidableEq, Repr

/-- Fields captured from a URL by the external parser: either a raw
version-guid string (the at-sign form) or course-id fields. -/
inductive UrlParse
  | guid (version_guid : PyStr) (block : Option PyStr)
  | course (p : CourseIdParse)
deriving DecidableEq, Repr

/-- Optional block capture of a URL parse (`parse.get('block', None)`). -/
def UrlParse.block : UrlParse → Option PyStr
  | .guid _ b => b
  | .course p => p.block

/-- Modelled from the spec: the external course-id field parser
(`parse_course_id` of xmodule.modulestore.parsers, not under src/).  Input
shaped like name, name;revision, optionally with a trailing #block; output
keys id, revision (optional) and block (optional); any other input is a
parse failure. -/
def parse_course_id (s : PyStr) : Option CourseIdParse :=
  let pb := splitFirst '#' s
  let ir := splitFirst ';' pb.1
  if validName ir.1 && optWord ir.2 && optWord pb.2 then
    some ⟨ir.1, ir.2, pb.2⟩
  else none

/-- Modelled from the spec: the external URL field parser (`parse_url` of
xmodule.modulestore.parsers, not under src/).  Input must carry the edx://
scheme; a path starting with an at-sign yields a raw version-guid capture
(hex characters, with an optional trailing #block), any other path is
parsed as a course id. -/
def parse_url (s : PyStr) : Option UrlParse :=
  match stripLead edxPre s with
  | none => none
  | some path =>
    match stripLead ['@'] path with
    | some rest =>
      let gb := splitFirst '#' rest
      if (!gb.1.isEmpty && gb.1.all isHexDigit) && optWord gb.2 then
        some (.guid gb.1 gb.2)
      else none
    | none =>
      match parse_course_id path with
      | some p => some (.course p)
      | none => none

/-- Modelled from the spec: the external block-reference parser
(`parse_block_ref` of xmodule.modulestore.parsers, not under src/).  Input
is a bare block coordinate string; output key block. -/
def parse_block_ref (s : PyStr) : Option PyStr :=
  if validWord s then some s else none

/-- Explicit bind on `Except PyErr`, mirroring Python exception
propagation. -/
def bindE {α β : Type} (x : Except PyErr α) (f : α → Except PyErr β) : Except PyErr β :=
  match x with
  | .error e => .error e
  | .ok a => f a

@[simp] theorem bindE_ok {α β : Type} (a : α) (f : α → Except PyErr β) :
    bindE (.ok a) f = f a := rfl

@[simp] theorem bindE_error {α β : Type} (e : PyErr) (f : α → Except PyErr β) :
    bindE (.error e) f = .error e := rfl

/-- Locator.set_property: read the current attribute value with `getattr`;
if it is truthy and differs from the new value, raise OverSpecificationError;
otherwise assign the new value with `setattr`. -/
def set_property {α : Type} [DecidableEq α] (t : α → Bool) (slot : Slot α)
    (new : Option α) : Except PyErr (Slot α) :=
  if pyTruthy t slot.val && slot.val != new then .error .overSpecification
  else .ok (Slot.ofOption new)

@[simp] theorem set_property_unassigned {α : Type} [DecidableEq α] (t : α → Bool)
    (new : Option α) : set_property t .unassigned new = .ok (Slot.ofOption new) := by
  simp [set_property, Slot.val, pyTruthy]

/-- CourseLocator state: the three attributes with class-level default
`None` (version_guid, course_id, revision), each tracked as a `Slot`. -/
structure CourseLocator where
  version_guid : Slot ObjectId := .unassigned
  course_id : Slot PyStr := .unassigned
  revision : Slot PyStr := .unassigned
deriving DecidableEq, Repr

/-- CourseLocator.set_course_id via Locator.set_property. -/
def CourseLocator.set_course_id (l : CourseLocator) (new : Option PyStr) :
    Except PyErr CourseLocator :=
  bindE (set_property strT l.course_id new) (fun s => .ok { l with course_id := s })

/-- CourseLocator.set_revision via Locator.set_property. -/
def CourseLocator.set_revision (l : CourseLocator) (new : Option PyStr) :
    Except PyErr CourseLocator :=
  bindE (set_property strT l.revision new) (fun s => .ok { l with revision := s })

/-- CourseLocator.set_version_guid via Locator.set_property. -/
def CourseLocator.set_version_guid (l : CourseLocator) (new : Option ObjectId) :
    Except PyErr CourseLocator :=
  bindE (set_property oidT l.version_guid new) (fun s => .ok { l with version_guid := s })

/-- CourseLocator.validate_args: at least one of url, version_guid,
course_id must be provided (not None; an empty string counts as provided),
otherwise InsufficientSpecificationError.  The revision argument does not
count. -/
def validate_args (url : Option PyStr) (version_guid : Option ObjectId)
    (course_id : Option PyStr) (_revision : Option PyStr) : Except PyErr Unit :=
  if url = none ∧ version_guid = none ∧ course_id = none then
    .error .insufficientSpecification
  else .ok ()

/-- CourseLocator.init_from_url on an already-validated string url: parse
it (a parse failure is an assert failure); a version_guid capture is fed to
ObjectId (an invalid guid raises ValueError) and stored; otherwise the id
and revision captures are stored.  The Python method also accepts a Locator
instance in place of the string, replacing it by its url(); the embedding
covers the string inputs. -/
def CourseLocator.init_from_url (l : CourseLocator) (url : PyStr) :
    Except PyErr CourseLocator :=
  match parse_url url with
  | none => .error .assertionError
  | some (.guid g _) =>
    match ObjectId.ofStr g with
    | none => .error .valueError
    | some oid => l.set_version_guid (some oid)
  | some (.course p) =>
    bindE (l.set_course_id (some p.id)) (fun l1 => l1.set_revision p.revision)

/-- CourseLocator.init_from_version_guid: the argument is an ObjectId by
the modelled type, so the isinstance assert always passes; store it. -/
def CourseLocator.init_from_version_guid (l : CourseLocator) (vg : ObjectId) :
    Except PyErr CourseLocator :=
  l.set_version_guid (some vg)

/-- CourseLocator.init_from_course_id: when course_id is truthy, parse it
(failure is an assert failure), store the id capture, and store the
revision capture when truthy; then store the explicit revision when truthy.
The Python method also accepts a CourseLocator in place of the course_id
string, replacing it by its course_id attribute; the embedding covers the
string inputs. -/
def CourseLocator.init_from_course_id (l : CourseLocator) (course_id : Option PyStr)
    (explicit_revision : Option PyStr) : Except PyErr CourseLocator :=
  bindE
    (match course_id with
     | some cid =>
       if strT cid then
         match parse_course_id cid with
         | none => .error .assertionError
         | some p =>
           bindE (l.set_course_id (some p.id)) (fun l1 =>
             if pyTruthy strT p.revision then l1.set_revision p.revision else .ok l1)
       else .ok l
     | none => .ok l)
    (fun l2 =>
      if pyTruthy strT explicit_revision then l2.set_revision explicit_revision
      else .ok l2)

/-- Step of CourseLocator.__init__ guarded by `if url:`. -/
def CourseLocator.urlStep (l : CourseLocator) (url : Option PyStr) :
    Except PyErr CourseLocator :=
  match url with
  | some u => if strT u then l.init_from_url u else .ok l
  | none => .ok l

/-- Step of CourseLocator.__init__ guarded by `if version_guid:`. -/
def CourseLocator.guidStep (l : CourseLocator) (version_guid : Option ObjectId) :
    Except PyErr CourseLocator :=
  match version_guid with
  | some vg => l.init_from_version_guid vg
  | none => .ok l

/-- Step of CourseLocator.__init__ guarded by `if course_id or revision:`. -/
def CourseLocator.courseIdStep (l : CourseLocator) (course_id : Option PyStr)
    (revision : Option PyStr) : Except PyErr CourseLocator :=
  if pyTruthy strT course_id || pyTruthy strT revision then
    l.init_from_course_id course_id revision
  else .ok l

/-- Body of CourseLocator.__init__ running on the state `l` (the Python
`self`): validate the arguments, run the three guarded initialization
steps, and check the final `assert self.version_guid or self.course_id`. -/
def CourseLocator.initSelf (l : CourseLocator) (url : Option PyStr)
    (version_guid : Option ObjectId) (course_id : Option PyStr)
    (revision : Option PyStr) : Except PyErr CourseLocator :=
  bindE (validate_args url version_guid course_id revision) (fun _ =>
  bindE (l.urlStep url) (fun l1 =>
  bindE (l1.guidStep version_guid) (fun l2 =>
  bindE (l2.courseIdStep course_id revision) (fun l3 =>
  if pyTruthy oidT l3.version_guid.val || pyTruthy strT l3.course_id.val then .ok l3
  else .error .assertionError))))

/-- CourseLocator(...): run __init__ on a fresh instance (all attributes at
their class defaults). -/
def CourseLocator.make (url : Option PyStr) (version_guid : Option ObjectId)
    (course_id : Option PyStr) (revision : Option PyStr) : Except PyErr CourseLocator :=
  CourseLocator.initSelf {} url version_guid course_id revision

/-- Placeholder string returned by CourseLocator.__unicode__ when neither
course_id nor version_guid is set (the documented diagnostic quirk). -/
def insuffPlaceholder : PyStr :=
  ['<', 'I', 'n', 's', 'u', 'f', 'f', 'i', 'c', 'i', 'e', 'n', 't', 'S', 'p', 'e',
   'c', 'i', 'f', 'i', 'c', 'a', 't', 'i', 'o', 'n', 'E', 'r', 'r', 'o', 'r', '>']

/-- CourseLocator.__unicode__: the course_id (with a semicolon-joined
revision when truthy) when course_id is truthy, else the at-sign form of
version_guid when set, else the diagnostic placeholder. -/
def CourseLocator.unicode (l : CourseLocator) : PyStr :=
  if pyTruthy strT l.course_id.val then
    (l.course_id.val.getD []) ++
      (if pyTruthy strT l.revision.val then ';' :: l.revision.val.getD [] else [])
  else if l.version_guid.val.isSome then
    '@' :: (l.version_guid.val.getD ⟨[]⟩).hex
  else insuffPlaceholder

/-- CourseLocator.url: the edx:// scheme followed by the unicode form. -/
def CourseLocator.url (l : CourseLocator) : PyStr := edxPre ++ l.unicode

/-- CourseLocator.version: returns the version_guid attribute value (which
may be None; callers must check). -/
def CourseLocator.version (l : CourseLocator) : Option ObjectId := l.version_guid.val

/-- BlockUsageLocator state: the CourseLocator attributes plus usage_id,
whose class-level default is also `None`. -/
structure BlockUsageLocator where
  version_guid : Slot ObjectId := .unassigned
  course_id : Slot PyStr := .unassigned
  revision : Slot PyStr := .unassigned
  usage_id : Slot PyStr := .unassigned
deriving DecidableEq, Repr

/-- Course-level part of a BlockUsageLocator's state, as read and written
by the inherited CourseLocator methods. -/
def BlockUsageLocator.courseFields (b : BlockUsageLocator) : CourseLocator :=
  ⟨b.version_guid, b.course_id, b.revision⟩

/-- Rebuild a BlockUsageLocator from updated course-level state, keeping
the usage_id attribute. -/
def BlockUsageLocator.withCourseFields (b : BlockUsageLocator) (c : CourseLocator) :
    BlockUsageLocator :=
  ⟨c.version_guid, c.course_id, c.revision, b.usage_id⟩

/-- BlockUsageLocator.set_usage_id via Locator.set_property. -/
def BlockUsageLocator.set_usage_id (b : BlockUsageLocator) (new : Option PyStr) :
    Except PyErr BlockUsageLocator :=
  bindE (set_property strT b.usage_id new) (fun s => .ok { b with usage_id := s })

/-- BlockUsageLocator.init_block_ref: parse the block reference (failure is
an assert failure) and store the block capture. -/
def BlockUsageLocator.init_block_ref (b : BlockUsageLocator) (block_ref : PyStr) :
    Except PyErr BlockUsageLocator :=
  match parse_block_ref block_ref with
  | none => .error .assertionError
  | some blk => b.set_usage_id (some blk)

/-- BlockUsageLocator.init_block_ref_from_url: parse the url (failure is an
assert failure) and store the block capture when truthy. -/
def BlockUsageLocator.init_block_ref_from_url (b : BlockUsageLocator) (url : PyStr) :
    Except PyErr BlockUsageLocator :=
  match parse_url url with
  | none => .error .assertionError
  | some p =>
    if pyTruthy strT p.block then b.set_usage_id p.block else .ok b

/-- BlockUsageLocator.init_block_ref_from_course_id: parse the course id
(failure is an assert failure) and store the block capture when truthy. -/
def BlockUsageLocator.init_block_ref_from_course_id (b : BlockUsageLocator)
    (course_id : PyStr) : Except PyErr BlockUsageLocator :=
  match parse_course_id course_id with
  | none => .error .assertionError
  | some p =>
    if pyTruthy strT p.block then b.set_usage_id p.block else .ok b

/-- Step of BlockUsageLocator.__init__ guarded by `if url:`. -/
def BlockUsageLocator.urlBlockStep (b : BlockUsageLocator) (url : Option PyStr) :
    Except PyErr BlockUsageLocator :=
  match url with
  | some u => if strT u then b.init_block_ref_from_url u else .ok b
  | none => .ok b

/-- Step of BlockUsageLocator.__init__ guarded by `if course_id:`. -/
def BlockUsageLocator.courseIdBlockStep (b : BlockUsageLocator)
    (course_id : Option PyStr) : Except PyErr BlockUsageLocator :=
  match course_id with
  | some cid => if strT cid then b.init_block_ref_from_course_id cid else .ok b
  | none => .ok b

/-- Step of BlockUsageLocator.__init__ guarded by `if usage_id:`. -/
def BlockUsageLocator.usageStep (b : BlockUsageLocator) (usage_id : Option PyStr) :
    Except PyErr BlockUsageLocator :=
  match usage_id with
  | some u => if strT u then b.init_block_ref u else .ok b
  | none => .ok b

/-- Body of BlockUsageLocator.__init__: validate the four course-level
arguments, run the three block-reference steps, then delegate to
CourseLocator.__init__ on the same state (which re-validates and re-parses;
the set-once discipline makes the re-derivation a no-op on consistent
data). -/
def BlockUsageLocator.initSelf (b : BlockUsageLocator) (url : Option PyStr)
    (version_guid : Option ObjectId) (course_id : Option PyStr)
    (revision : Option PyStr) (usage_id : Option PyStr) :
    Except PyErr BlockUsageLocator :=
  bindE (validate_args url version_guid course_id revision) (fun _ =>
  bindE (b.urlBlockStep url) (fun b1 =>
  bindE (b1.courseIdBlockStep course_id) (fun b2 =>
  bindE (b2.usageStep usage_id) (fun b3 =>
  bindE (CourseLocator.initSelf b3.courseFields url version_guid course_id revision)
    (fun c => .ok (b3.withCourseFields c))))))

/-- BlockUsageLocator(...): run __init__ on a fresh instance. -/
def BlockUsageLocator.make (url : Option PyStr) (version_guid : Option ObjectId)
    (course_id : Option PyStr) (revision : Option PyStr) (usage_id : Option PyStr) :
    Except PyErr BlockUsageLocator :=
  BlockUsageLocator.initSelf {} url version_guid course_id revision usage_id

/-- BlockUsageLocator.is_initialized: whether usage_id is not None. -/
def BlockUsageLocator.is_initialized (b : BlockUsageLocator) : Bool :=
  b.usage_id.val.isSome

/-- BlockUsageLocator.__unicode__: the CourseLocator form, suffixed with
hash-NONE when usage_id is None and with the hash-joined usage_id
otherwise. -/
def BlockUsageLocator.unicode (b : BlockUsageLocator) : PyStr :=
  b.courseFields.unicode ++
    (match b.usage_id.val with
     | none => ['#', 'N', 'O', 'N', 'E']
     | some u => '#' :: u)

/-- Locator.url as inherited by BlockUsageLocator: the edx:// scheme
followed by the (overridden) unicode form. -/
def BlockUsageLocator.url (b : BlockUsageLocator) : PyStr := edxPre ++ b.unicode

/-- BlockUsageLocator.version, inherited from CourseLocator. -/
def BlockUsageLocator.version (b : BlockUsageLocator) : Option ObjectId :=
  b.version_guid.val

/-- BlockUsageLocator.version_agnostic: when both course_id and
version_guid are truthy, construct the copy from version_guid, revision and
usage_id only; otherwise construct it from course_id, revision and
usage_id. -/
def BlockUsageLocator.version_agnostic (b : BlockUsageLocator) :
    Except PyErr BlockUsageLocator :=
  if pyTruthy strT b.course_id.val && b.version_guid.val.isSome then
    BlockUsageLocator.make none b.version_guid.val none b.revision.val b.usage_id.val
  else
    BlockUsageLocator.make none none b.course_id.val b.revision.val b.usage_id.val

/-- BlockUsageLocator.as_course_locator: a CourseLocator built from the
course_id, version_guid and revision attribute values. -/
def BlockUsageLocator.as_course_locator (b : BlockUsageLocator) :
    Except PyErr CourseLocator :=
  CourseLocator.make none b.version_guid.val b.course_id.val b.revision.val

/-- DescriptionLocator state: __init__ stores its argument in the
definition_id attribute and nothing else; in particular no attribute named
definition_guid is ever assigned, and the class declares no default for
it. -/
structure DescriptionLocator where
  definition_id : ObjectId
deriving DecidableEq, Repr

/-- DescriptionLocator(definition_id): store the argument verbatim. -/
def DescriptionLocator.makeD (definition_id : ObjectId) : DescriptionLocator :=
  ⟨definition_id⟩

/-- DescriptionLocator.__unicode__ reads self.definition_guid, an attribute
that is never assigned and has no class default, so the lookup raises
AttributeError on every instance. -/
def DescriptionLocator.unicode (_ : DescriptionLocator) : Except PyErr PyStr :=
  .error .attributeError

/-- DescriptionLocator.url: the edx:// scheme followed by the unicode form;
the AttributeError from __unicode__ propagates. -/
def DescriptionLocator.url (d : DescriptionLocator) : Except PyErr PyStr :=
  bindE d.unicode (fun u => .ok (edxPre ++ u))

/-- DescriptionLocator.version also reads the never-assigned
self.definition_guid, so it raises AttributeError on every instance. -/
def DescriptionLocator.version (_ : DescriptionLocator) : Except PyErr ObjectId :=
  .error .attributeError

/-- Python value held by a locator instance attribute, for the __dict__
comparison performed by Locator.__eq__. -/
inductive PyVal
  | str (s : PyStr)
  | oid (o : ObjectId)
deriving DecidableEq, Repr

/-- Entry a slot contributes to the instance __dict__: absent, present with
value None, or present with a value. -/
def Slot.entry {α : Type} (f : α → PyVal) : Slot α → Option (Option PyVal)
  | .unassigned => none
  | .assignedNone => some none
  | .assigned a => some (some (f a))

/-- Instance __dict__ of a locator, restricted to the four attribute names
any locator instance can carry.  Each component is `none` when the name is
absent from the __dict__. -/
structure PyDict where
  version_guid : Option (Option PyVal)
  course_id : Option (Option PyVal)
  revision : Option (Option PyVal)
  usage_id : Option (Option PyVal)
deriving DecidableEq, Repr

/-- Instance __dict__ of a CourseLocator (a usage_id key never occurs). -/
def CourseLocator.instDict (l : CourseLocator) : PyDict :=
  ⟨l.version_guid.entry .oid, l.course_id.entry .str, l.revision.entry .str, none⟩

/-- Instance __dict__ of a BlockUsageLocator. -/
def BlockUsageLocator.instDict (b : BlockUsageLocator) : PyDict :=
  ⟨b.version_guid.entry .oid, b.course_id.entry .str, b.revision.entry .str,
   b.usage_id.entry .str⟩

/-- Locator.__eq__ between two CourseLocators: compare instance
__dict__s. -/
def CourseLocator.pyEq (a b : CourseLocator) : Bool :=
  decide (a.instDict = b.instDict)

/-- Locator.__eq__ between two BlockUsageLocators: compare instance
__dict__s. -/
def BlockUsageLocator.pyEq (a b : BlockUsageLocator) : Bool :=
  decide (a.instDict = b.instDict)

/-- Locator.__eq__ between a CourseLocator and a BlockUsageLocator: the
method compares instance __dict__s only and never inspects the classes. -/
def CourseLocator.pyEqB (a : CourseLocator) (b : BlockUsageLocator) : Bool :=
  decide (a.instDict = b.instDict)

/-- Attribute values of a CourseLocator as read by getattr, in the order
version_guid, course_id, revision. -/
def CourseLocator.fieldValues (l : CourseLocator) :
    Option ObjectId × Option PyStr × Option PyStr :=
  (l.version_guid.val, l.course_id.val, l.revision.val)

/-- Attribute values of a BlockUsageLocator as read by getattr, in the
order version_guid, course_id, revision, usage_id. -/
def BlockUsageLocator.fieldValues (b : BlockUsageLocator) :
    Option ObjectId × Option PyStr × Option PyStr × Option PyStr :=
  (b.version_guid.val, b.course_id.val, b.revision.val, b.usage_id.val)

/-- Concrete locator variants, for VersionTree nodes (the tagged-union view
of the Locator capability). -/
inductive AnyLocator
  | course (c : CourseLocator)
  | block (b : BlockUsageLocator)
  | descr (d : DescriptionLocator)
deriving DecidableEq, Repr

/-- Dynamic dispatch of version() on a locator value.  CourseLocator and
BlockUsageLocator return the version_guid attribute value (possibly None);
DescriptionLocator raises AttributeError. -/
def AnyLocator.version : AnyLocator → Except PyErr (Option ObjectId)
  | .course c => .ok c.version
  | .block b => .ok b.version
  | .descr d => bindE d.version (fun o => .ok (some o))

/-- Adjacency mapping handed to VersionTree: a Python dict from version ids
to ordered child-locator lists, modelled as an association list with the
first matching key winning. -/
abbrev TreeDict := List (ObjectId × List AnyLocator)

/-- Python dict.get(key, []) on a TreeDict. -/
def dictGet (d : TreeDict) (k : ObjectId) : List AnyLocator :=
  match d.find? (fun kv => decide (kv.1 = k)) with
  | some kv => kv.2
  | none => []

/-- VersionTree node: the stored locator and the ordered child trees. -/
structure VersionTree where
  locator : AnyLocator
  children : List VersionTree
deriving Repr

/-- Left-to-right effectful map, mirroring a Python list comprehension over
constructor calls: the first raised exception propagates. -/
def mapExceptList {α β : Type} (f : α → Except PyErr β) : List α → Except PyErr (List β)
  | [] => .ok []
  | a :: as_ =>
    match f a with
    | .error e => .error e
    | .ok b =>
      match mapExceptList f as_ with
      | .error e => .error e
      | .ok bs => .ok (b :: bs)

/-- VersionTree.__init__, with a fuel parameter embedding the unbounded
recursion of the source (the source has no depth guard; a cyclic mapping
recurses forever, which the model reports as `recursionError` when the fuel
runs out).  The isinstance assert always passes for an `AnyLocator`; the
truthiness assert on locator.version() fails when the version is None, and
an exception raised by version() propagates.  With no mapping the children
list is empty; otherwise one child is built recursively, with the same
mapping, per locator under the version key (an absent key yields no
children). -/
def VersionTree.make : Nat → AnyLocator → Option TreeDict → Except PyErr VersionTree
  | 0, _, _ => .error .recursionError
  | fuel + 1, locator, tree_dict =>
    match locator.version with
    | .error e => .error e
    | .ok none => .error .assertionError
    | .ok (some v) =>
      match tree_dict with
      | none => .ok ⟨locator, []⟩
      | some d =>
        match mapExceptList (fun child => VersionTree.make fuel child (some d))
            (dictGet d v) with
        | .error e => .error e
        | .ok cs => .ok ⟨locator, cs⟩

@[simp] theorem Slot.val_unassigned {α : Type} : (Slot.unassigned : Slot α).val = none := rfl

@[simp] theorem Slot.val_assignedNone {α : Type} : (Slot.assignedNone : Slot α).val = none := rfl

@[simp] theorem Slot.val_assigned {α : Type} (a : α) : (Slot.assigned a).val = some a := rfl

@[simp] theorem Slot.val_ofOption {α : Type} (o : Option α) : (Slot.ofOption o).val = o := by
  cases o <;> rfl

theorem stripLead_append (p s : PyStr) : stripLead p (p ++ s) = some s := by
  induction p with
  | nil => rfl
  | cons c cs ih => simp [stripLead, ih]

theorem stripLead_at_cons {c : Char} (tl : PyStr) (h : c ≠ '@') :
    stripLead ['@'] (c :: tl) = none := by
  have hne : ¬('@' = c) := fun e => h e.symm
  simp [stripLead, hne]

theorem splitFirst_not_mem (sep : Char) (s : PyStr) (h : ∀ c ∈ s, c ≠ sep) :
    splitFirst sep s = (s, none) := by
  induction s with
  | nil => rfl
  | cons c cs ih =>
    have hc : c ≠ sep := h c (List.mem_cons_self c cs)
    simp [splitFirst, hc, ih (fun d hd => h d (List.mem_cons_of_mem c hd))]

theorem splitFirst_append (sep : Char) (s t : PyStr) (h : ∀ c ∈ s, c ≠ sep) :
    splitFirst sep (s ++ sep :: t) = (s, some t) := by
  induction s with
  | nil => simp [splitFirst]
  | cons c cs ih =>
    have hc : c ≠ sep := h c (List.mem_cons_self c cs)
    simp [splitFirst, hc, ih (fun d hd => h d (List.mem_cons_of_mem c hd))]

theorem nameChar_ne_hash {c : Char} (h : isNameChar c = true) : c ≠ '#' := by
  intro e
  subst e
  exact absurd h (by decide)

theorem nameChar_ne_semi {c : Char} (h : isNameChar c = true) : c ≠ ';' := by
  intro e
  subst e
  exact absurd h (by decide)

theorem nameChar_ne_at {c : Char} (h : isNameChar c = true) : c ≠ '@' := by
  intro e
  subst e
  exact absurd h (by decide)

theorem wordChar_ne_hash {c : Char} (h : isWordChar c = true) : c ≠ '#' := by
  intro e
  subst e
  exact absurd h (by decide)

theorem hexChar_ne_hash {c : Char} (h : isHexDigit c = true) : c ≠ '#' := by
  intro e
  subst e
  exact absurd h (by decide)

theorem validName_mem {s : PyStr} (h : validName s = true) :
    ∀ c ∈ s, isNameChar c = true := by
  simp only [validName, Bool.and_eq_true, List.all_eq_true] at h
  intro c hc
  exact h.2 c hc

theorem validWord_mem {s : PyStr} (h : validWord s = true) :
    ∀ c ∈ s, isWordChar c = true := by
  simp only [validWord, Bool.and_eq_true, List.all_eq_true] at h
  intro c hc
  exact h.2 c hc

theorem validName_strT {s : PyStr} (h : validName s = true) : strT s = true := by
  simp only [validName, Bool.and_eq_true] at h
  simp [strT, h.1]

theorem validWord_strT {s : PyStr} (h : validWord s = true) : strT s = true := by
  simp only [validWord, Bool.and_eq_true] at h
  simp [strT, h.1]

theorem parse_course_id_name {cid : PyStr} (h : validName cid = true) :
    parse_course_id cid = some ⟨cid, none, none⟩ := by
  have hh : ∀ c ∈ cid, c ≠ '#' := fun c hc => nameChar_ne_hash (validName_mem h c hc)
  have hs : ∀ c ∈ cid, c ≠ ';' := fun c hc => nameChar_ne_semi (validName_mem h c hc)
  simp [parse_course_id, splitFirst_not_mem '#' cid hh, splitFirst_not_mem ';' cid hs,
    h, optWord]

theorem parse_course_id_name_rev {cid r : PyStr} (h : validName cid = true)
    (hr : validWord r = true) :
    parse_course_id (cid ++ ';' :: r) = some ⟨cid, some r, none⟩ := by
  have hh : ∀ c ∈ cid ++ ';' :: r, c ≠ '#' := by
    intro c hc
    rcases List.mem_append.1 hc with hc | hc
    · exact nameChar_ne_hash (validName_mem h c hc)
    · rcases List.mem_cons.1 hc with e | hc
      · subst e; decide
      · exact wordChar_ne_hash (validWord_mem hr c hc)
  have hs : ∀ c ∈ cid, c ≠ ';' := fun c hc => nameChar_ne_semi (validName_mem h c hc)
  simp [parse_course_id, splitFirst_not_mem '#' _ hh, splitFirst_append ';' cid r hs,
    h, hr, optWord]

theorem parse_course_id_name_blk {cid u : PyStr} (h : validName cid = true)
    (hu : validWord u = true) :
    parse_course_id (cid ++ '#' :: u) = some ⟨cid, none, some u⟩ := by
  have hh : ∀ c ∈ cid, c ≠ '#' := fun c hc => nameChar_ne_hash (validName_mem h c hc)
  have hs : ∀ c ∈ cid, c ≠ ';' := fun c hc => nameChar_ne_semi (validName_mem h c hc)
  simp [parse_course_id, splitFirst_append '#' cid u hh, splitFirst_not_mem ';' cid hs,
    h, hu, optWord]

theorem parse_course_id_name_rev_blk {cid r u : PyStr} (h : validName cid = true)
    (hr : validWord r = true) (hu : validWord u = true) :
    parse_course_id ((cid ++ ';' :: r) ++ '#' :: u) = some ⟨cid, some r, some u⟩ := by
  have hh : ∀ c ∈ cid ++ ';' :: r, c ≠ '#' := by
    intro c hc
    rcases List.mem_append.1 hc with hc | hc
    · exact nameChar_ne_hash (validName_mem h c hc)
    · rcases List.mem_cons.1 hc with e | hc
      · subst e; decide
      · exact wordChar_ne_hash (validWord_mem hr c hc)
  have hs : ∀ c ∈ cid, c ≠ ';' := fun c hc => nameChar_ne_semi (validName_mem h c hc)
  have e1 : splitFirst '#' ((cid ++ ';' :: r) ++ '#' :: u) = (cid ++ ';' :: r, some u) :=
    splitFirst_append '#' _ u hh
  have e2 : splitFirst ';' (cid ++ ';' :: r) = (cid, some r) :=
    splitFirst_append ';' cid r hs
  simp only [parse_course_id, e1, e2]
  simp [h, hr, hu, optWord]

theorem validName_head_ne_at {cid : PyStr} (h : validName cid = true) :
    ∃ c tl, cid = c :: tl ∧ c ≠ '@' := by
  cases cid with
  | nil => exact absurd h (by decide)
  | cons c tl =>
    exact ⟨c, tl, rfl, nameChar_ne_at (validName_mem h c (List.mem_cons_self c tl))⟩

theorem parse_url_of_course {path : PyStr} {c : Char} {tl : PyStr}
    (hp : path = c :: tl) (hc : c ≠ '@') :
    parse_url (edxPre ++ path) = (match parse_course_id path with
      | some p => some (.course p)
      | none => none) := by
  subst hp
  simp only [parse_url, stripLead_append, stripLead_at_cons tl hc]

theorem parse_url_name {cid : PyStr} (h : validName cid = true) :
    parse_url (edxPre ++ cid) = some (.course ⟨cid, none, none⟩) := by
  obtain ⟨c, tl, hp, hc⟩ := validName_head_ne_at h
  rw [parse_url_of_course hp hc, parse_course_id_name h]

theorem parse_url_name_rev {cid r : PyStr} (h : validName cid = true)
    (hr : validWord r = true) :
    parse_url (edxPre ++ (cid ++ ';' :: r)) = some (.course ⟨cid, some r, none⟩) := by
  obtain ⟨c, tl, hp, hc⟩ := validName_head_ne_at h
  have hp2 : cid ++ ';' :: r = c :: (tl ++ ';' :: r) := by rw [hp]; rfl
  rw [parse_url_of_course hp2 hc, parse_course_id_name_rev h hr]

theorem parse_url_name_blk {cid u : PyStr} (h : validName cid = true)
    (hu : validWord u = true) :
    parse_url (edxPre ++ (cid ++ '#' :: u)) = some (.course ⟨cid, none, some u⟩) := by
  obtain ⟨c, tl, hp, hc⟩ := validName_head_ne_at h
  have hp2 : cid ++ '#' :: u = c :: (tl ++ '#' :: u) := by rw [hp]; rfl
  rw [parse_url_of_course hp2 hc, parse_course_id_name_blk h hu]

theorem parse_url_name_rev_blk {cid r u : PyStr} (h : validName cid = true)
    (hr : validWord r = true) (hu : validWord u = true) :
    parse_url (edxPre ++ ((cid ++ ';' :: r) ++ '#' :: u)) =
      some (.course ⟨cid, some r, some u⟩) := by
  obtain ⟨c, tl, hp, hc⟩ := validName_head_ne_at h
  have hp2 : (cid ++ ';' :: r) ++ '#' :: u = c :: ((tl ++ ';' :: r) ++ '#' :: u) := by
    rw [hp]
    rfl
  rw [parse_url_of_course hp2 hc, parse_course_id_name_rev_blk h hr hu]

theorem validHex_mem {s : PyStr} (h : s.all isHexDigit = true) :
    ∀ c ∈ s, isHexDigit c = true := by
  simp only [List.all_eq_true] at h
  exact h

theorem parse_url_guid {g : PyStr} (hne : g.isEmpty = false)
    (hhex : g.all isHexDigit = true) :
    parse_url (edxPre ++ '@' :: g) = some (.guid g none) := by
  have hh : ∀ c ∈ g, c ≠ '#' := fun c hc => hexChar_ne_hash (validHex_mem hhex c hc)
  simp only [parse_url, stripLead_append]
  have e0 : stripLead ['@'] ('@' :: g) = some g := by simp [stripLead]
  simp only [e0, splitFirst_not_mem '#' g hh]
  simp [hne, hhex, optWord]

theorem parse_url_guid_blk {g u : PyStr} (hne : g.isEmpty = false)
    (hhex : g.all isHexDigit = true) (hu : validWord u = true) :
    parse_url (edxPre ++ '@' :: (g ++ '#' :: u)) = some (.guid g (some u)) := by
  have hh : ∀ c ∈ g, c ≠ '#' := fun c hc => hexChar_ne_hash (validHex_mem hhex c hc)
  simp only [parse_url, stripLead_append]
  have e0 : stripLead ['@'] ('@' :: (g ++ '#' :: u)) = some (g ++ '#' :: u) := by
    simp [stripLead]
  simp only [e0, splitFirst_append '#' g u hh]
  simp [hne, hhex, hu, optWord]

theorem ObjectId.ofStr_canonical {o : ObjectId} (h : o.canonical = true) :
    ObjectId.ofStr o.hex = some o := by
  simp only [ObjectId.canonical, Bool.and_eq_true, List.all_eq_true,
    decide_eq_true_eq] at h
  obtain ⟨hlen, hall⟩ := h
  have hhex : o.hex.all isHexDigit = true := by
    simp only [List.all_eq_true]
    intro c hc
    exact (hall c hc).1
  have hmap : o.hex.map Char.toLower = o.hex := by
    have e : o.hex.map Char.toLower = o.hex.map id :=
      List.map_congr_left (fun c hc => (hall c hc).2)
    rw [e, List.map_id]
  simp [ObjectId.ofStr, hlen, hhex, hmap]

theorem strT_edx (s : PyStr) : strT (edxPre ++ s) = true := by
  simp [strT, edxPre]

theorem make_url_name {cid : PyStr} (h : validName cid = true) :
    CourseLocator.make (some (edxPre ++ cid)) none none none =
      .ok ⟨.unassigned, .assigned cid, .assignedNone⟩ := by
  simp [CourseLocator.make, CourseLocator.initSelf, validate_args,
    CourseLocator.urlStep, strT_edx, CourseLocator.init_from_url, parse_url_name h,
    CourseLocator.set_course_id, CourseLocator.set_revision, set_property,
    Slot.ofOption, CourseLocator.guidStep, CourseLocator.courseIdStep,
    pyTruthy, validName_strT h]

theorem make_url_name_rev {cid r : PyStr} (h : validName cid = true)
    (hr : validWord r = true) :
    CourseLocator.make (some (edxPre ++ (cid ++ ';' :: r))) none none none =
      .ok ⟨.unassigned, .assigned cid, .assigned r⟩ := by
  simp [CourseLocator.make, CourseLocator.initSelf, validate_args,
    CourseLocator.urlStep, strT_edx, CourseLocator.init_from_url,
    parse_url_name_rev h hr, CourseLocator.set_course_id, CourseLocator.set_revision,
    set_property, Slot.ofOption, CourseLocator.guidStep, CourseLocator.courseIdStep,
    pyTruthy, validName_strT h]

theorem canonical_facts {o : ObjectId} (hc : o.canonical = true) :
    o.hex.length = 24 ∧ o.hex.isEmpty = false ∧ o.hex.all isHexDigit = true := by
  simp only [ObjectId.canonical, Bool.and_eq_true, List.all_eq_true,
    decide_eq_true_eq] at hc
  obtain ⟨hlen, hall⟩ := hc
  refine ⟨hlen, ?_, ?_⟩
  · cases e : o.hex.isEmpty
    · rfl
    · exfalso
      rw [List.isEmpty_iff] at e
      rw [e] at hlen
      exact absurd hlen (by decide)
  · simp only [List.all_eq_true]
    intro c hcm
    exact (hall c hcm).1

theorem make_url_guid {o : ObjectId} (hc : o.canonical = true) :
    CourseLocator.make (some (edxPre ++ '@' :: o.hex)) none none none =
      .ok ⟨.assigned o, .unassigned, .unassigned⟩ := by
  obtain ⟨hlen, hne, hhex⟩ := canonical_facts hc
  simp [CourseLocator.make, CourseLocator.initSelf, validate_args,
    CourseLocator.urlStep, strT_edx, CourseLocator.init_from_url,
    parse_url_guid hne hhex, ObjectId.ofStr_canonical hc,
    CourseLocator.set_version_guid, set_property, Slot.ofOption,
    CourseLocator.guidStep, CourseLocator.courseIdStep, pyTruthy, oidT]

theorem makeB_url_name_blk {cid u : PyStr} (h : validName cid = true)
    (hu : validWord u = true) :
    BlockUsageLocator.make (some (edxPre ++ (cid ++ '#' :: u))) none none none none =
      .ok ⟨.unassigned, .assigned cid, .assignedNone, .assigned u⟩ := by
  simp [BlockUsageLocator.make, BlockUsageLocator.initSelf, validate_args,
    BlockUsageLocator.urlBlockStep, strT_edx, BlockUsageLocator.init_block_ref_from_url,
    parse_url_name_blk h hu, UrlParse.block, BlockUsageLocator.set_usage_id,
    set_property, Slot.ofOption, BlockUsageLocator.courseIdBlockStep,
    BlockUsageLocator.usageStep, BlockUsageLocator.courseFields,
    BlockUsageLocator.withCourseFields, CourseLocator.initSelf,
    CourseLocator.urlStep, CourseLocator.init_from_url,
    CourseLocator.set_course_id, CourseLocator.set_revision,
    CourseLocator.guidStep, CourseLocator.courseIdStep,
    pyTruthy, validName_strT h, validWord_strT hu]

theorem parse_url_name_rev_blk2 {cid r u : PyStr} (h : validName cid = true)
    (hr : validWord r = true) (hu : validWord u = true) :
    parse_url (edxPre ++ (cid ++ ';' :: (r ++ '#' :: u))) =
      some (.course ⟨cid, some r, some u⟩) := by
  have e : cid ++ ';' :: (r ++ '#' :: u) = (cid ++ ';' :: r) ++ '#' :: u := by
    simp
  rw [e]
  exact parse_url_name_rev_blk h hr hu

theorem makeB_url_name_rev_blk {cid r u : PyStr} (h : validName cid = true)
    (hr : validWord r = true) (hu : validWord u = true) :
    BlockUsageLocator.make (some (edxPre ++ ((cid ++ ';' :: r) ++ '#' :: u)))
        none none none none =
      .ok ⟨.unassigned, .assigned cid, .assigned r, .assigned u⟩ := by
  simp [BlockUsageLocator.make, BlockUsageLocator.initSelf, validate_args,
    BlockUsageLocator.urlBlockStep, strT_edx, BlockUsageLocator.init_block_ref_from_url,
    parse_url_name_rev_blk2 h hr hu, UrlParse.block, BlockUsageLocator.set_usage_id,
    set_property, Slot.ofOption, BlockUsageLocator.courseIdBlockStep,
    BlockUsageLocator.usageStep, BlockUsageLocator.courseFields,
    BlockUsageLocator.withCourseFields, CourseLocator.initSelf,
    CourseLocator.urlStep, CourseLocator.init_from_url,
    CourseLocator.set_course_id, CourseLocator.set_revision,
    CourseLocator.guidStep, CourseLocator.courseIdStep,
    pyTruthy, validName_strT h, validWord_strT hu]

theorem makeB_url_guid_blk {o : ObjectId} {u : PyStr} (hc : o.canonical = true)
    (hu : validWord u = true) :
    BlockUsageLocator.make (some (edxPre ++ '@' :: (o.hex ++ '#' :: u)))
        none none none none =
      .ok ⟨.assigned o, .unassigned, .unassigned, .assigned u⟩ := by
  obtain ⟨hlen, hne, hhex⟩ := canonical_facts hc
  simp [BlockUsageLocator.make, BlockUsageLocator.initSelf, validate_args,
    BlockUsageLocator.urlBlockStep, strT_edx, BlockUsageLocator.init_block_ref_from_url,
    parse_url_guid_blk hne hhex hu, UrlParse.block, BlockUsageLocator.set_usage_id,
    set_property, Slot.ofOption, BlockUsageLocator.courseIdBlockStep,
    BlockUsageLocator.usageStep, BlockUsageLocator.courseFields,
    BlockUsageLocator.withCourseFields, CourseLocator.initSelf,
    CourseLocator.urlStep, CourseLocator.init_from_url,
    ObjectId.ofStr_canonical hc, CourseLocator.set_version_guid,
    CourseLocator.guidStep, CourseLocator.courseIdStep,
    pyTruthy, oidT, validWord_strT hu]

/-- Optional value that, when present, must be a valid course name. -/
def optName : Option PyStr → Bool
  | none => true
  | some s => validName s

/-- Optional value that, when present, must be a canonical ObjectId. -/
def optCanon : Option ObjectId → Bool
  | none => true
  | some o => o.canonical

/-- Well-formed attribute values of a CourseLocator: the shapes that
construction through the parsers produces (a course_id that parses as a
name, a revision that parses as a word, a canonical version guid). -/
def CourseLocator.wfVals (l : CourseLocator) : Bool :=
  optName l.course_id.val && optWord l.revision.val && optCanon l.version_guid.val

/-- A CourseLocator whose attribute values carry exactly the information
its url() renders: either course-addressed (truthy course_id, no
version_guid) or version-addressed (version_guid and neither course_id nor
revision). -/
def CourseLocator.oneAxis (l : CourseLocator) : Bool :=
  (pyTruthy strT l.course_id.val && l.version_guid.val.isNone) ||
    (l.version_guid.val.isSome && l.course_id.val.isNone && l.revision.val.isNone)

/-- Well-formed attribute values of a BlockUsageLocator. -/
def BlockUsageLocator.wfVals (b : BlockUsageLocator) : Bool :=
  b.courseFields.wfVals && optWord b.usage_id.val

theorem url_course_norev {l : CourseLocator} {cid : PyStr}
    (hc : l.course_id.val = some cid) (ht : strT cid = true)
    (hr : pyTruthy strT l.revision.val = false) :
    l.url = edxPre ++ cid := by
  simp only [pyTruthy] at hr
  simp [CourseLocator.url, CourseLocator.unicode, hc, ht, hr, pyTruthy]

theorem url_course_rev {l : CourseLocator} {cid r : PyStr}
    (hc : l.course_id.val = some cid) (ht : strT cid = true)
    (hr : l.revision.val = some r) (hrt : strT r = true) :
    l.url = edxPre ++ (cid ++ ';' :: r) := by
  simp [CourseLocator.url, CourseLocator.unicode, hc, ht, hr, hrt, pyTruthy]

theorem url_guid {l : CourseLocator} {o : ObjectId}
    (hcf : pyTruthy strT l.course_id.val = false) (hv : l.version_guid.val = some o) :
    l.url = edxPre ++ '@' :: o.hex := by
  simp [CourseLocator.url, CourseLocator.unicode, hcf, hv]

theorem urlB_course_norev_blk {b : BlockUsageLocator} {cid u : PyStr}
    (hc : b.course_id.val = some cid) (ht : strT cid = true)
    (hr : pyTruthy strT b.revision.val = false) (hu : b.usage_id.val = some u) :
    b.url = edxPre ++ (cid ++ '#' :: u) := by
  simp only [pyTruthy] at hr
  simp [BlockUsageLocator.url, BlockUsageLocator.unicode, BlockUsageLocator.courseFields,
    CourseLocator.unicode, hc, ht, hr, hu, pyTruthy]

theorem urlB_course_rev_blk {b : BlockUsageLocator} {cid r u : PyStr}
    (hc : b.course_id.val = some cid) (ht : strT cid = true)
    (hr : b.revision.val = some r) (hrt : strT r = true) (hu : b.usage_id.val = some u) :
    b.url = edxPre ++ ((cid ++ ';' :: r) ++ '#' :: u) := by
  simp [BlockUsageLocator.url, BlockUsageLocator.unicode, BlockUsageLocator.courseFields,
    CourseLocator.unicode, hc, ht, hr, hrt, hu, pyTruthy]

theorem urlB_guid_blk {b : BlockUsageLocator} {o : ObjectId} {u : PyStr}
    (hcf : pyTruthy strT b.course_id.val = false) (hv : b.version_guid.val = some o)
    (hu : b.usage_id.val = some u) :
    b.url = edxPre ++ '@' :: (o.hex ++ '#' :: u) := by
  simp [BlockUsageLocator.url, BlockUsageLocator.unicode, BlockUsageLocator.courseFields,
    CourseLocator.unicode, hcf, hv, hu]

theorem wfVals_parts {l : CourseLocator} (h : l.wfVals = true) :
    optName l.course_id.val = true ∧ optWord l.revision.val = true ∧
      optCanon l.version_guid.val = true := by
  simp only [CourseLocator.wfVals, Bool.and_eq_true] at h
  tauto

theorem roundtrip_course (l : CourseLocator) (hwf : l.wfVals = true)
    (haxis : l.oneAxis = true) :
    (CourseLocator.make (some l.url) none none none).map CourseLocator.fieldValues =
      .ok l.fieldValues := by
  obtain ⟨h1, h2, h3⟩ := wfVals_parts hwf
  simp only [CourseLocator.oneAxis, Bool.or_eq_true, Bool.and_eq_true] at haxis
  rcases haxis with ⟨hct, hvn⟩ | ⟨⟨hvs, hcn⟩, hrn⟩
  · rw [Option.isNone_iff_eq_none] at hvn
    cases ec : l.course_id.val with
    | none =>
      rw [ec] at hct
      exact absurd hct (by simp [pyTruthy])
    | some cid =>
      have hname : validName cid = true := by
        rw [ec] at h1
        simpa [optName] using h1
      have hcidT : strT cid = true := by
        rw [ec] at hct
        simpa [pyTruthy] using hct
      cases er : l.revision.val with
      | none =>
        rw [url_course_norev ec hcidT (by rw [er]; rfl), make_url_name hname]
        simp [Except.map, CourseLocator.fieldValues, ec, er, hvn]
      | some r =>
        have hword : validWord r = true := by
          rw [er] at h2
          simpa [optWord] using h2
        rw [url_course_rev ec hcidT er (validWord_strT hword),
          make_url_name_rev hname hword]
        simp [Except.map, CourseLocator.fieldValues, ec, er, hvn]
  · rw [Option.isSome_iff_exists] at hvs
    obtain ⟨o, ev⟩ := hvs
    rw [Option.isNone_iff_eq_none] at hcn hrn
    have hcanon : o.canonical = true := by
      rw [ev] at h3
      simpa [optCanon] using h3
    rw [url_guid (by rw [hcn]; rfl) ev, make_url_guid hcanon]
    simp [Except.map, CourseLocator.fieldValues, ev, hcn, hrn]

theorem roundtrip_block (b : BlockUsageLocator) (hwf : b.wfVals = true)
    (haxis : b.courseFields.oneAxis = true) (hus : b.usage_id.val.isSome = true) :
    (BlockUsageLocator.make (some b.url) none none none none).map
      BlockUsageLocator.fieldValues = .ok b.fieldValues := by
  simp only [BlockUsageLocator.wfVals, Bool.and_eq_true] at hwf
  obtain ⟨hcw, huw⟩ := hwf
  obtain ⟨h1, h2, h3⟩ := wfVals_parts hcw
  simp only [BlockUsageLocator.courseFields] at h1 h2 h3
  rw [Option.isSome_iff_exists] at hus
  obtain ⟨u, eu⟩ := hus
  have huword : validWord u = true := by
    rw [eu] at huw
    simpa [optWord] using huw
  simp only [CourseLocator.oneAxis, BlockUsageLocator.courseFields, Bool.or_eq_true,
    Bool.and_eq_true] at haxis
  rcases haxis with ⟨hct, hvn⟩ | ⟨⟨hvs, hcn⟩, hrn⟩
  · rw [Option.isNone_iff_eq_none] at hvn
    cases ec : b.course_id.val with
    | none =>
      rw [ec] at hct
      exact absurd hct (by simp [pyTruthy])
    | some cid =>
      have hname : validName cid = true := by
        rw [ec] at h1
        simpa [optName] using h1
      have hcidT : strT cid = true := by
        rw [ec] at hct
        simpa [pyTruthy] using hct
      cases er : b.revision.val with
      | none =>
        rw [urlB_course_norev_blk ec hcidT (by rw [er]; rfl) eu,
          makeB_url_name_blk hname huword]
        simp [Except.map, BlockUsageLocator.fieldValues, ec, er, hvn, eu]
      | some r =>
        have hword : validWord r = true := by
          rw [er] at h2
          simpa [optWord] using h2
        rw [urlB_course_rev_blk ec hcidT er (validWord_strT hword) eu,
          makeB_url_name_rev_blk hname hword huword]
        simp [Except.map, BlockUsageLocator.fieldValues, ec, er, hvn, eu]
  · rw [Option.isSome_iff_exists] at hvs
    obtain ⟨o, ev⟩ := hvs
    rw [Option.isNone_iff_eq_none] at hcn hrn
    have hcanon : o.canonical = true := by
      rw [ev] at h3
      simpa [optCanon] using h3
    rw [urlB_guid_blk (by rw [hcn]; rfl) ev eu, makeB_url_guid_blk hcanon huword]
    simp [Except.map, BlockUsageLocator.fieldValues, ev, hcn, hrn, eu]

/-- Slot resulting from an optional explicit argument routed through a
truthiness-guarded set: left at the class default when absent, assigned
when present and truthy. -/
def slotIfSet : Option PyStr → Slot PyStr
  | none => .unassigned
  | some s => .assigned s

@[simp] theorem slotIfSet_val (o : Option PyStr) : (slotIfSet o).val = o := by
  cases o <;> rfl

/-- Optional string that is either absent or nonempty (the shapes a
revision attribute value can take on a constructed locator). -/
def optNonempty : Option PyStr → Bool
  | none => true
  | some s => strT s

theorem makeB_of_guid (o : ObjectId) (rv uv : Option PyStr)
    (hrv : optNonempty rv = true) (hu : optWord uv = true) :
    BlockUsageLocator.make none (some o) none rv uv =
      .ok ⟨.assigned o, .unassigned, slotIfSet rv, slotIfSet uv⟩ := by
  cases rv with
  | none =>
    cases uv with
    | none =>
      simp [BlockUsageLocator.make, BlockUsageLocator.initSelf, validate_args,
        BlockUsageLocator.urlBlockStep, BlockUsageLocator.courseIdBlockStep,
        BlockUsageLocator.usageStep, BlockUsageLocator.courseFields,
        BlockUsageLocator.withCourseFields, CourseLocator.initSelf,
        CourseLocator.urlStep, CourseLocator.guidStep,
        CourseLocator.init_from_version_guid, CourseLocator.set_version_guid,
        set_property, Slot.ofOption, CourseLocator.courseIdStep, pyTruthy, oidT,
        slotIfSet]
    | some u =>
      have huv : validWord u = true := by simpa [optWord] using hu
      simp [BlockUsageLocator.make, BlockUsageLocator.initSelf, validate_args,
        BlockUsageLocator.urlBlockStep, BlockUsageLocator.courseIdBlockStep,
        BlockUsageLocator.usageStep, validWord_strT huv,
        BlockUsageLocator.init_block_ref, parse_block_ref, huv,
        BlockUsageLocator.set_usage_id, BlockUsageLocator.courseFields,
        BlockUsageLocator.withCourseFields, CourseLocator.initSelf,
        CourseLocator.urlStep, CourseLocator.guidStep,
        CourseLocator.init_from_version_guid, CourseLocator.set_version_guid,
        set_property, Slot.ofOption, CourseLocator.courseIdStep, pyTruthy, oidT,
        slotIfSet]
  | some r =>
    have hrt : strT r = true := by simpa [optNonempty] using hrv
    cases uv with
    | none =>
      simp [BlockUsageLocator.make, BlockUsageLocator.initSelf, validate_args,
        BlockUsageLocator.urlBlockStep, BlockUsageLocator.courseIdBlockStep,
        BlockUsageLocator.usageStep, BlockUsageLocator.courseFields,
        BlockUsageLocator.withCourseFields, CourseLocator.initSelf,
        CourseLocator.urlStep, CourseLocator.guidStep,
        CourseLocator.init_from_version_guid, CourseLocator.set_version_guid,
        CourseLocator.courseIdStep, hrt, CourseLocator.init_from_course_id,
        CourseLocator.set_revision, set_property, Slot.ofOption, pyTruthy, oidT,
        slotIfSet]
    | some u =>
      have huv : validWord u = true := by simpa [optWord] using hu
      simp [BlockUsageLocator.make, BlockUsageLocator.initSelf, validate_args,
        BlockUsageLocator.urlBlockStep, BlockUsageLocator.courseIdBlockStep,
        BlockUsageLocator.usageStep, validWord_strT huv,
        BlockUsageLocator.init_block_ref, parse_block_ref, huv,
        BlockUsageLocator.set_usage_id, BlockUsageLocator.courseFields,
        BlockUsageLocator.withCourseFields, CourseLocator.initSelf,
        CourseLocator.urlStep, CourseLocator.guidStep,
        CourseLocator.init_from_version_guid, CourseLocator.set_version_guid,
        CourseLocator.courseIdStep, hrt, CourseLocator.init_from_course_id,
        CourseLocator.set_revision, set_property, Slot.ofOption, pyTruthy, oidT,
        slotIfSet]

theorem makeB_of_cid (cid : PyStr) (rv uv : Option PyStr)
    (hname : validName cid = true) (hrv : optNonempty rv = true)
    (hu : optWord uv = true) :
    BlockUsageLocator.make none none (some cid) rv uv =
      .ok ⟨.unassigned, .assigned cid, slotIfSet rv, slotIfSet uv⟩ := by
  have hct : strT cid = true := validName_strT hname
  cases rv with
  | none =>
    cases uv with
    | none =>
      simp [BlockUsageLocator.make, BlockUsageLocator.initSelf, validate_args,
        BlockUsageLocator.urlBlockStep, BlockUsageLocator.courseIdBlockStep, hct,
        BlockUsageLocator.init_block_ref_from_course_id, parse_course_id_name hname,
        BlockUsageLocator.usageStep, BlockUsageLocator.courseFields,
        BlockUsageLocator.withCourseFields, CourseLocator.initSelf,
        CourseLocator.urlStep, CourseLocator.guidStep, CourseLocator.courseIdStep,
        CourseLocator.init_from_course_id, CourseLocator.set_course_id,
        set_property, Slot.ofOption, pyTruthy, validName_strT hname, slotIfSet]
    | some u =>
      have huv : validWord u = true := by simpa [optWord] using hu
      simp [BlockUsageLocator.make, BlockUsageLocator.initSelf, validate_args,
        BlockUsageLocator.urlBlockStep, BlockUsageLocator.courseIdBlockStep, hct,
        BlockUsageLocator.init_block_ref_from_course_id, parse_course_id_name hname,
        BlockUsageLocator.usageStep, validWord_strT huv,
        BlockUsageLocator.init_block_ref, parse_block_ref, huv,
        BlockUsageLocator.set_usage_id, BlockUsageLocator.courseFields,
        BlockUsageLocator.withCourseFields, CourseLocator.initSelf,
        CourseLocator.urlStep, CourseLocator.guidStep, CourseLocator.courseIdStep,
        CourseLocator.init_from_course_id, CourseLocator.set_course_id,
        set_property, Slot.ofOption, pyTruthy, validName_strT hname, slotIfSet]
  | some r =>
    have hrt : strT r = true := by simpa [optNonempty] using hrv
    cases uv with
    | none =>
      simp [BlockUsageLocator.make, BlockUsageLocator.initSelf, validate_args,
        BlockUsageLocator.urlBlockStep, BlockUsageLocator.courseIdBlockStep, hct,
        BlockUsageLocator.init_block_ref_from_course_id, parse_course_id_name hname,
        BlockUsageLocator.usageStep, BlockUsageLocator.courseFields,
        BlockUsageLocator.withCourseFields, CourseLocator.initSelf,
        CourseLocator.urlStep, CourseLocator.guidStep, CourseLocator.courseIdStep,
        CourseLocator.init_from_course_id, CourseLocator.set_course_id,
        CourseLocator.set_revision, hrt,
        set_property, Slot.ofOption, pyTruthy, validName_strT hname, slotIfSet]
    | some u =>
      have huv : validWord u = true := by simpa [optWord] using hu
      simp [BlockUsageLocator.make, BlockUsageLocator.initSelf, validate_args,
        BlockUsageLocator.urlBlockStep, BlockUsageLocator.courseIdBlockStep, hct,
        BlockUsageLocator.init_block_ref_from_course_id, parse_course_id_name hname,
        BlockUsageLocator.usageStep, validWord_strT huv,
        BlockUsageLocator.init_block_ref, parse_block_ref, huv,
        BlockUsageLocator.set_usage_id, BlockUsageLocator.courseFields,
        BlockUsageLocator.withCourseFields, CourseLocator.initSelf,
        CourseLocator.urlStep, CourseLocator.guidStep, CourseLocator.courseIdStep,
        CourseLocator.init_from_course_id, CourseLocator.set_course_id,
        CourseLocator.set_revision, hrt,
        set_property, Slot.ofOption, pyTruthy, validName_strT hname, slotIfSet]

theorem pyval_str_inj : Function.Injective PyVal.str := by
  intro a b h
  injection h

theorem pyval_oid_inj : Function.Injective PyVal.oid := by
  intro a b h
  injection h

theorem Slot.entry_inj {α : Type} {f : α → PyVal} (hf : Function.Injective f)
    {s1 s2 : Slot α} (h : s1.entry f = s2.entry f) : s1 = s2 := by
  cases s1 <;> cases s2 <;> simp_all [Slot.entry]
  exact hf h

theorem instDict_course_iff (a b : CourseLocator) :
    a.instDict = b.instDict ↔ a = b := by
  constructor
  · intro h
    cases a
    cases b
    simp only [CourseLocator.instDict, PyDict.mk.injEq] at h
    obtain ⟨h1, h2, h3, _⟩ := h
    simp only [CourseLocator.mk.injEq]
    exact ⟨Slot.entry_inj pyval_oid_inj h1, Slot.entry_inj pyval_str_inj h2,
      Slot.entry_inj pyval_str_inj h3⟩
  · intro h
    rw [h]

theorem instDict_block_iff (a b : BlockUsageLocator) :
    a.instDict = b.instDict ↔ a = b := by
  constructor
  · intro h
    cases a
    cases b
    simp only [BlockUsageLocator.instDict, PyDict.mk.injEq] at h
    obtain ⟨h1, h2, h3, h4⟩ := h
    simp only [BlockUsageLocator.mk.injEq]
    exact ⟨Slot.entry_inj pyval_oid_inj h1, Slot.entry_inj pyval_str_inj h2,
      Slot.entry_inj pyval_str_inj h3, Slot.entry_inj pyval_str_inj h4⟩
  · intro h
    rw [h]

theorem instDict_cross_iff (a : CourseLocator) (b : BlockUsageLocator) :
    a.instDict = b.instDict ↔ (a = b.courseFields ∧ b.usage_id = .unassigned) := by
  constructor
  · intro h
    cases a
    cases b
    simp only [CourseLocator.instDict, BlockUsageLocator.instDict,
      PyDict.mk.injEq] at h
    obtain ⟨h1, h2, h3, h4⟩ := h
    have hu : _ = Slot.unassigned := Slot.entry_inj pyval_str_inj h4.symm
    refine ⟨?_, hu⟩
    simp only [BlockUsageLocator.courseFields, CourseLocator.mk.injEq]
    exact ⟨Slot.entry_inj pyval_oid_inj h1, Slot.entry_inj pyval_str_inj h2,
      Slot.entry_inj pyval_str_inj h3⟩
  · intro h
    obtain ⟨h1, h2⟩ := h
    cases b
    simp only [BlockUsageLocator.courseFields] at h1
    subst h1
    simp_all [CourseLocator.instDict, BlockUsageLocator.instDict, Slot.entry]

theorem set_property_cases {α : Type} [DecidableEq α] (t : α → Bool) (s : Slot α)
    (new : Option α) :
    (pyTruthy t s.val = false → set_property t s new = .ok (Slot.ofOption new)) ∧
    (pyTruthy t s.val = true → s.val = new → set_property t s new = .ok s) ∧
    (pyTruthy t s.val = true → s.val ≠ new →
      set_property t s new = .error .overSpecification) := by
  refine ⟨?_, ?_, ?_⟩
  · intro h
    simp [set_property, h]
  · intro h1 h2
    cases s with
    | unassigned => simp [Slot.val, pyTruthy] at h1
    | assignedNone => simp [Slot.val, pyTruthy] at h1
    | assigned a =>
      have : new = some a := h2.symm
      subst this
      simp [set_property, Slot.ofOption]
  · intro h1 h2
    simp [set_property, h1, h2]

theorem mapExceptList_ok {α β : Type} (f : α → Except PyErr β) (xs : List α)
    (ys : List β) (h : mapExceptList f xs = .ok ys) :
    ys.length = xs.length ∧ ∀ i (hi : i < xs.length) (hj : i < ys.length),
      f (xs.get ⟨i, hi⟩) = .ok (ys.get ⟨i, hj⟩) := by
  induction xs generalizing ys with
  | nil =>
    simp only [mapExceptList] at h
    cases h
    exact ⟨rfl, by intro i hi; exact absurd hi (by simp)⟩
  | cons a as ih =>
    simp only [mapExceptList] at h
    cases ea : f a with
    | error e =>
      rw [ea] at h
      exact absurd h (by simp)
    | ok b =>
      rw [ea] at h
      cases eas : mapExceptList f as with
      | error e =>
        rw [eas] at h
        exact absurd h (by simp)
      | ok bs =>
        rw [eas] at h
        cases h
        obtain ⟨hlen, hidx⟩ := ih bs eas
        refine ⟨by simp [hlen], ?_⟩
        intro i hi hj
        cases i with
        | zero => simpa using ea
        | succ k =>
          have hk : k < as.length := by simpa using hi
          have hk2 : k < bs.length := by simpa using hj
          simpa using hidx k hk hk2

instance {ε α : Type} [DecidableEq ε] [DecidableEq α] : DecidableEq (Except ε α) :=
  fun a b =>
    match a, b with
    | .error e1, .error e2 =>
      if h : e1 = e2 then .isTrue (by rw [h]) else .isFalse (fun he => h (Except.error.inj he))
    | .ok a1, .ok a2 =>
      if h : a1 = a2 then .isTrue (by rw [h]) else .isFalse (fun he => h (Except.ok.inj he))
    | .error _, .ok _ => .isFalse (fun he => Except.noConfusion he)
    | .ok _, .error _ => .isFalse (fun he => Except.noConfusion he)

/-- Canonical 24-character hex string of letters a. -/
def hexA : PyStr := List.replicate 24 'a'

/-- Concrete ObjectId used in witnesses and counterexamples. -/
def oidA : ObjectId := ⟨hexA⟩

/-- Concrete course-addressed CourseLocator with a revision. -/
def wrtC : CourseLocator :=
  ⟨.unassigned, .assigned ['x'], .assigned ['d', 'r', 'a', 'f', 't']⟩

/-- Concrete version-addressed BlockUsageLocator with a usage id. -/
def wrtB : BlockUsageLocator :=
  ⟨.assigned oidA, .unassigned, .unassigned, .assigned ['H', 'W', '3']⟩

/-- Claim C2: for every locator field and every write via set_property
during construction, a write over a falsy current value sets the field, a
write of an equal value is a no-op keeping the value, and a write of a
different value over a truthy current value fails with OverSpecification;
in particular supplying course_id a through both the url and the course_id
argument succeeds with course_id a, while supplying a and b fails with
OverSpecification. -/
theorem set_property_claim :
    (∀ (s : Slot PyStr) (new : Option PyStr),
      (pyTruthy strT s.val = false → set_property strT s new = .ok (Slot.ofOption new)) ∧
      (pyTruthy strT s.val = true → s.val = new → set_property strT s new = .ok s) ∧
      (pyTruthy strT s.val = true → s.val ≠ new →
        set_property strT s new = .error .overSpecification)) ∧
    (∀ (s : Slot ObjectId) (new : Option ObjectId),
      (pyTruthy oidT s.val = false → set_property oidT s new = .ok (Slot.ofOption new)) ∧
      (pyTruthy oidT s.val = true → s.val = new → set_property oidT s new = .ok s) ∧
      (pyTruthy oidT s.val = true → s.val ≠ new →
        set_property oidT s new = .error .overSpecification)) ∧
    CourseLocator.make (some (edxPre ++ ['a'])) none (some ['a']) none =
      .ok ⟨.unassigned, .assigned ['a'], .assignedNone⟩ ∧
    CourseLocator.make (some (edxPre ++ ['a'])) none (some ['b']) none =
      .error .overSpecification := by
  refine ⟨fun s new => set_property_cases strT s new,
    fun s new => set_property_cases oidT s new, ?_, ?_⟩ <;> decide

/-- Witness for C2 at concrete slots: an overwrite of a by b fails, an
equal rewrite of a keeps a, and a write over an unset field sets it. -/
theorem set_property_claim_witness :
    set_property strT (.assigned ['a']) (some ['b']) = .error .overSpecification ∧
    set_property strT (.assigned ['a']) (some ['a']) = .ok (.assigned ['a']) ∧
    set_property strT .unassigned (some ['a']) = .ok (.assigned ['a']) :=
  ⟨(set_property_claim.1 (.assigned ['a']) (some ['b'])).2.2 (by decide) (by decide),
   (set_property_claim.1 (.assigned ['a']) (some ['a'])).2.1 (by decide) (by decide),
   (set_property_claim.1 .unassigned (some ['a'])).1 (by decide)⟩

/-- Claim C3: constructing a CourseLocator or BlockUsageLocator with url,
version_guid and course_id all absent fails with
InsufficientSpecification even when revision or usage_id is supplied, and
the validation step passes when at least one of the three is non-empty. -/
theorem insufficient_validation_claim :
    (∀ rev : Option PyStr,
      CourseLocator.make none none none rev = .error .insufficientSpecification) ∧
    (∀ rev uid : Option PyStr,
      BlockUsageLocator.make none none none rev uid =
        .error .insufficientSpecification) ∧
    (∀ (url : Option PyStr) (vg : Option ObjectId) (cid rev : Option PyStr),
      (pyTruthy strT url || vg.isSome || pyTruthy strT cid) = true →
      validate_args url vg cid rev = .ok ()) := by
  refine ⟨?_, ?_, ?_⟩
  · intro rev
    simp [CourseLocator.make, CourseLocator.initSelf, validate_args]
  · intro rev uid
    simp [BlockUsageLocator.make, BlockUsageLocator.initSelf, validate_args]
  · intro url vg cid rev h
    have hne : ¬(url = none ∧ vg = none ∧ cid = none) := by
      rintro ⟨e1, e2, e3⟩
      rw [e1, e2, e3] at h
      simp [pyTruthy] at h
    simp [validate_args, hne]

/-- Witness for C3 at concrete arguments. -/
theorem insufficient_validation_claim_witness :
    CourseLocator.make none none none (some ['d']) =
      .error .insufficientSpecification ∧
    BlockUsageLocator.make none none none none (some ['u']) =
      .error .insufficientSpecification ∧
    validate_args (some ['a']) none none none = .ok () :=
  ⟨insufficient_validation_claim.1 (some ['d']),
   insufficient_validation_claim.2.1 none (some ['u']),
   insufficient_validation_claim.2.2 (some ['a']) none none none (by decide)⟩

/-- Claim C4: url() renders the edx:// scheme followed by the course_id
(with a semicolon-joined revision when set) when course_id is set,
otherwise the at-sign form of the version guid when set; a
BlockUsageLocator is suffixed with the hash-joined usage_id when set and
with hash-NONE when unset. -/
theorem url_render_claim :
    (∀ (l : CourseLocator) (cid r : PyStr), l.course_id.val = some cid →
      strT cid = true → l.revision.val = some r → strT r = true →
      l.url = edxPre ++ (cid ++ ';' :: r)) ∧
    (∀ (l : CourseLocator) (cid : PyStr), l.course_id.val = some cid →
      strT cid = true → pyTruthy strT l.revision.val = false →
      l.url = edxPre ++ cid) ∧
    (∀ (l : CourseLocator) (o : ObjectId), pyTruthy strT l.course_id.val = false →
      l.version_guid.val = some o → l.url = edxPre ++ '@' :: o.hex) ∧
    (∀ (b : BlockUsageLocator) (u : PyStr), b.usage_id.val = some u →
      b.url = b.courseFields.url ++ '#' :: u) ∧
    (∀ b : BlockUsageLocator, b.usage_id.val = none →
      b.url = b.courseFields.url ++ ['#', 'N', 'O', 'N', 'E']) := by
  refine ⟨fun l cid r h1 h2 h3 h4 => url_course_rev h1 h2 h3 h4,
    fun l cid h1 h2 h3 => url_course_norev h1 h2 h3,
    fun l o h1 h2 => url_guid h1 h2, ?_, ?_⟩
  · intro b u hu
    simp [BlockUsageLocator.url, BlockUsageLocator.unicode, CourseLocator.url, hu]
  · intro b hu
    simp [BlockUsageLocator.url, BlockUsageLocator.unicode, CourseLocator.url, hu]

/-- Witness for C4 at concrete locators: a course locator with revision,
a block locator with usage id, and one without. -/
theorem url_render_claim_witness :
    wrtC.url = edxPre ++ (['x'] ++ ';' :: ['d', 'r', 'a', 'f', 't']) ∧
    wrtB.url = wrtB.courseFields.url ++ '#' :: ['H', 'W', '3'] ∧
    (⟨.unassigned, .assigned ['x'], .unassigned, .unassigned⟩ :
        BlockUsageLocator).url =
      (⟨.unassigned, .assigned ['x'], .unassigned, .unassigned⟩ :
        BlockUsageLocator).courseFields.url ++ ['#', 'N', 'O', 'N', 'E'] :=
  ⟨url_render_claim.1 wrtC ['x'] ['d', 'r', 'a', 'f', 't'] rfl (by decide) rfl
    (by decide),
   url_render_claim.2.2.2.1 wrtB ['H', 'W', '3'] rfl,
   url_render_claim.2.2.2.2 ⟨.unassigned, .assigned ['x'], .unassigned, .unassigned⟩
     rfl⟩

/-- Claim C7: the spec says DescriptionLocator stores definition_id
verbatim, renders url() as the edx:// at-sign form of it and returns it
from version(); the code stores the argument verbatim but renders and
returns the never-assigned attribute definition_guid, so url() and
version() raise AttributeError instead (the latent field-name bug the spec
flags in its design notes). -/
theorem description_locator_claim :
    (DescriptionLocator.makeD oidA).definition_id = oidA ∧
    (DescriptionLocator.makeD oidA).url = .error .attributeError ∧
    (DescriptionLocator.makeD oidA).version = .error .attributeError :=
  ⟨rfl, rfl, rfl⟩

/-- Claim C8: constructing a VersionTree whose root locator yields no
version fails the contract assert, and a root whose version() raises
propagates that failure; the tree is never built from a non-version-
addressed root. -/
theorem versiontree_root_guard_claim (n : Nat) (td : Option TreeDict)
    (l : AnyLocator) :
    (l.version = .ok none → VersionTree.make (n + 1) l td = .error .assertionError) ∧
    (∀ e, l.version = .error e → VersionTree.make (n + 1) l td = .error e) := by
  constructor
  · intro h
    simp [VersionTree.make, h]
  · intro e h
    simp [VersionTree.make, h]

/-- Witness for C8: a CourseLocator with only a course_id fails the
version assert; a DescriptionLocator root propagates its AttributeError. -/
theorem versiontree_root_guard_claim_witness :
    VersionTree.make 1 (.course ⟨.unassigned, .assigned ['x'], .unassigned⟩) none =
      .error .assertionError ∧
    VersionTree.make 1 (.descr (DescriptionLocator.makeD oidA)) none =
      .error .attributeError :=
  ⟨(versiontree_root_guard_claim 0 none
      (.course ⟨.unassigned, .assigned ['x'], .unassigned⟩)).1 rfl,
   (versiontree_root_guard_claim 0 none
      (.descr (DescriptionLocator.makeD oidA))).2 .attributeError rfl⟩

/-- Claim C10: version_agnostic on a BlockUsageLocator whose version_guid
is set and whose course_id is unset takes the selection branch that passes
the unset course_id to the new constructor, whose validation rejects it
with InsufficientSpecification. -/
theorem version_agnostic_insufficient_claim (b : BlockUsageLocator) (o : ObjectId)
    (hc : b.course_id.val = none) (_hv : b.version_guid.val = some o) :
    b.version_agnostic = .error .insufficientSpecification := by
  have hf : pyTruthy strT b.course_id.val = false := by rw [hc]; rfl
  simp [BlockUsageLocator.version_agnostic, hf, hc, BlockUsageLocator.make,
    BlockUsageLocator.initSelf, validate_args, pyTruthy]

/-- Witness for C10 at a concrete version-only block locator. -/
theorem version_agnostic_insufficient_claim_witness :
    wrtB.version_agnostic = .error .insufficientSpecification :=
  version_agnostic_insufficient_claim wrtB oidA rfl rfl

/-- Concrete CourseLocator carrying both addressing axes, as built by
CourseLocator(version_guid=oidA, course_id=x). -/
def cexBoth : CourseLocator := ⟨.assigned oidA, .assigned ['x'], .unassigned⟩

/-- Locator obtained by reconstructing cexBoth from its url. -/
def cexBothRT : CourseLocator := ⟨.unassigned, .assigned ['x'], .assignedNone⟩

/-- Counterexample to claim C1 as stated: a validly constructed
CourseLocator carrying both a version_guid and a course_id renders only the
course axis, so reconstruction from its url() loses the version_guid (and
its revision slot differs as well); the reconstructed locator is not equal
to the original, neither by attribute values nor by Python equality. -/
theorem locator_url_roundtrip_cex :
    CourseLocator.make none (some oidA) (some ['x']) none = .ok cexBoth ∧
    CourseLocator.make (some cexBoth.url) none none none = .ok cexBothRT ∧
    cexBothRT.fieldValues ≠ cexBoth.fieldValues ∧
    cexBoth.pyEq cexBothRT = false := by decide

/-- Claim C1, amended: reconstruction of a locator from its url() restores
its attribute values (not its Python __eq__ identity, which also tracks
which attributes were ever assigned) provided the locator carries exactly
the information url() renders: well-formed field values, exactly one
addressing axis (course_id without version_guid, or version_guid without
course_id and revision), and, for a BlockUsageLocator, an initialized
usage_id (an uninitialized one renders as the sentinel hash-NONE, which
reconstruction reads back as the usage id NONE). -/
theorem locator_url_roundtrip_amended (l : CourseLocator) (b : BlockUsageLocator) :
    (l.wfVals = true → l.oneAxis = true →
      (CourseLocator.make (some l.url) none none none).map CourseLocator.fieldValues =
        .ok l.fieldValues) ∧
    (b.wfVals = true → b.courseFields.oneAxis = true → b.usage_id.val.isSome = true →
      (BlockUsageLocator.make (some b.url) none none none none).map
        BlockUsageLocator.fieldValues = .ok b.fieldValues) :=
  ⟨fun h1 h2 => roundtrip_course l h1 h2, fun h1 h2 h3 => roundtrip_block b h1 h2 h3⟩

/-- Witness for the amended C1 at a concrete course-addressed CourseLocator
and a concrete version-addressed BlockUsageLocator. -/
theorem locator_url_roundtrip_witness :
    (CourseLocator.make (some wrtC.url) none none none).map CourseLocator.fieldValues =
      .ok wrtC.fieldValues ∧
    (BlockUsageLocator.make (some wrtB.url) none none none none).map
      BlockUsageLocator.fieldValues = .ok wrtB.fieldValues :=
  ⟨(locator_url_roundtrip_amended wrtC wrtB).1 (by decide) (by decide),
   (locator_url_roundtrip_amended wrtC wrtB).2 (by decide) (by decide) (by decide)⟩

/-- Claim C5: version_agnostic on a BlockUsageLocator with both course_id
and version_guid set returns a copy with course_id unset and version_guid,
revision and usage_id preserved; with course_id set and version_guid unset
it returns a copy with course_id, revision and usage_id preserved.  The
hypotheses state the shapes construction gives the fields: a revision that
is absent or nonempty, a usage id that is absent or a block word, a
course id that is a course name. -/
theorem version_agnostic_claim (b : BlockUsageLocator)
    (hrev : optNonempty b.revision.val = true) (hus : optWord b.usage_id.val = true) :
    (pyTruthy strT b.course_id.val = true → b.version_guid.val.isSome = true →
      b.version_agnostic.map BlockUsageLocator.fieldValues =
        .ok (b.version_guid.val, none, b.revision.val, b.usage_id.val)) ∧
    (∀ cid, b.course_id.val = some cid → validName cid = true →
      b.version_guid.val = none →
      b.version_agnostic.map BlockUsageLocator.fieldValues =
        .ok (none, b.course_id.val, b.revision.val, b.usage_id.val)) := by
  constructor
  · intro hct hvs
    rw [Option.isSome_iff_exists] at hvs
    obtain ⟨o, ev⟩ := hvs
    simp only [BlockUsageLocator.version_agnostic, hct, ev, Option.isSome_some,
      Bool.and_self, if_true]
    rw [makeB_of_guid o _ _ hrev hus]
    simp [Except.map, BlockUsageLocator.fieldValues]
  · intro cid ec hname hvn
    simp only [BlockUsageLocator.version_agnostic, hvn, Option.isSome_none,
      Bool.and_false, Bool.false_eq_true, if_false]
    rw [ec, makeB_of_cid cid _ _ hname hrev hus]
    simp [Except.map, BlockUsageLocator.fieldValues]

/-- Witness for C5: a both-axes block locator drops its course_id, a
course-only one keeps it. -/
theorem version_agnostic_claim_witness :
    (⟨.assigned oidA, .assigned ['x'], .unassigned, .assigned ['H', 'W', '3']⟩ :
        BlockUsageLocator).version_agnostic.map BlockUsageLocator.fieldValues =
      .ok (some oidA, none, none, some ['H', 'W', '3']) ∧
    (⟨.unassigned, .assigned ['x'], .assigned ['d', 'r', 'a', 'f', 't'],
        .unassigned⟩ :
        BlockUsageLocator).version_agnostic.map BlockUsageLocator.fieldValues =
      .ok (none, some ['x'], some ['d', 'r', 'a', 'f', 't'], none) :=
  ⟨(version_agnostic_claim
      ⟨.assigned oidA, .assigned ['x'], .unassigned, .assigned ['H', 'W', '3']⟩
      (by decide) (by decide)).1 (by decide) (by decide),
   (version_agnostic_claim
      ⟨.unassigned, .assigned ['x'], .assigned ['d', 'r', 'a', 'f', 't'],
        .unassigned⟩
      (by decide) (by decide)).2 ['x'] rfl (by decide) rfl⟩

/-- CourseLocator built from course_id a alone: its revision attribute is
never assigned. -/
def eqCexA : CourseLocator := ⟨.unassigned, .assigned ['a'], .unassigned⟩

/-- CourseLocator built from url edx a: its revision attribute is assigned
None by the url parse step. -/
def eqCexB : CourseLocator := ⟨.unassigned, .assigned ['a'], .assignedNone⟩

/-- Counterexample to claim C6 as stated: two validly constructed
CourseLocators with identical attribute values (course_id a, no revision,
no version_guid) compare unequal, because __eq__ compares instance
__dict__s and only one of them carries an explicitly assigned revision
None. -/
theorem locator_eq_cex :
    CourseLocator.make none none (some ['a']) none = .ok eqCexA ∧
    CourseLocator.make (some (edxPre ++ ['a'])) none none none = .ok eqCexB ∧
    eqCexA.fieldValues = eqCexB.fieldValues ∧
    eqCexA.pyEq eqCexB = false := by decide

/-- Claim C6, amended: two locators are equal exactly when their instance
__dict__s agree, i.e. when the same attributes were assigned, with equal
values; a field assigned None differs from a never-assigned field, so
locators with equal attribute values can compare unequal.  Equality never
inspects the class: a CourseLocator is never equal to a BlockUsageLocator
whose usage_id was assigned, and it is equal to one whose usage_id was
never assigned exactly when the course attributes agree. -/
theorem locator_eq_claim :
    (∀ a b : CourseLocator, a.pyEq b = true ↔ a = b) ∧
    (∀ a b : BlockUsageLocator, a.pyEq b = true ↔ a = b) ∧
    (∀ (a : CourseLocator) (b : BlockUsageLocator) (u : PyStr),
      b.usage_id = .assigned u → a.pyEqB b = false) ∧
    (∀ (a : CourseLocator) (b : BlockUsageLocator), b.usage_id = .unassigned →
      (a.pyEqB b = true ↔ a = b.courseFields)) := by
  refine ⟨?_, ?_, ?_, ?_⟩
  · intro a b
    simp [CourseLocator.pyEq, instDict_course_iff]
  · intro a b
    simp [BlockUsageLocator.pyEq, instDict_block_iff]
  · intro a b u h
    simp only [CourseLocator.pyEqB, decide_eq_false_iff_not]
    rw [instDict_cross_iff]
    rintro ⟨-, h2⟩
    rw [h] at h2
    exact Slot.noConfusion h2
  · intro a b h
    simp [CourseLocator.pyEqB, instDict_cross_iff, h]

/-- Witness for the amended C6: reflexivity on a concrete locator,
inequality against a block locator with usage id, equality against one
without. -/
theorem locator_eq_claim_witness :
    eqCexA.pyEq eqCexA = true ∧
    eqCexA.pyEqB ⟨.unassigned, .assigned ['a'], .unassigned,
      .assigned ['H', 'W', '3']⟩ = false ∧
    eqCexA.pyEqB ⟨.unassigned, .assigned ['a'], .unassigned, .unassigned⟩ = true :=
  ⟨(locator_eq_claim.1 eqCexA eqCexA).2 rfl,
   locator_eq_claim.2.2.1 eqCexA
     ⟨.unassigned, .assigned ['a'], .unassigned, .assigned ['H', 'W', '3']⟩
     ['H', 'W', '3'] rfl,
   (locator_eq_claim.2.2.2 eqCexA
     ⟨.unassigned, .assigned ['a'], .unassigned, .unassigned⟩ rfl).2 (by decide)⟩

/-- Claim C9: a VersionTree built from a version-addressed root and a
mapping stores the root and has one child per locator under the root's
version key, in order, each built recursively with the same mapping; with
no mapping, or an absent key, the children sequence is empty. -/
theorem versiontree_children_claim (n : Nat) (l : AnyLocator) (td : TreeDict)
    (v : ObjectId) (t : VersionTree) (hv : l.version = .ok (some v)) :
    (VersionTree.make (n + 1) l (some td) = .ok t →
      t.locator = l ∧ t.children.length = (dictGet td v).length ∧
      ∀ i (hi : i < (dictGet td v).length) (hj : i < t.children.length),
        VersionTree.make n ((dictGet td v).get ⟨i, hi⟩) (some td) =
          .ok (t.children.get ⟨i, hj⟩)) ∧
    (VersionTree.make (n + 1) l none = .ok ⟨l, []⟩) ∧
    (dictGet td v = [] → VersionTree.make (n + 1) l (some td) = .ok ⟨l, []⟩) := by
  refine ⟨?_, ?_, ?_⟩
  · intro h
    simp only [VersionTree.make, hv] at h
    cases em : mapExceptList (fun child => VersionTree.make n child (some td))
        (dictGet td v) with
    | error e =>
      rw [em] at h
      exact absurd h (by simp)
    | ok cs =>
      rw [em] at h
      have ht := Except.ok.inj h
      subst ht
      obtain ⟨hlen, hidx⟩ := mapExceptList_ok _ _ _ em
      exact ⟨rfl, hlen, fun i hi hj => hidx i hi hj⟩
  · simp [VersionTree.make, hv]
  · intro he
    simp [VersionTree.make, hv, he, mapExceptList]

/-- Version-addressed root for the concrete VersionTree example. -/
def rootLoc : AnyLocator :=
  .course ⟨.assigned ⟨List.replicate 24 'b'⟩, .unassigned, .unassigned⟩

/-- First child of the example, with a version absent from the mapping. -/
def childLoc1 : AnyLocator :=
  .course ⟨.assigned ⟨List.replicate 24 'c'⟩, .unassigned, .unassigned⟩

/-- Second child of the example, with a version absent from the mapping. -/
def childLoc2 : AnyLocator :=
  .course ⟨.assigned ⟨List.replicate 24 'd'⟩, .unassigned, .unassigned⟩

/-- Example mapping sending the root version to its two children. -/
def tdEx : TreeDict := [(⟨List.replicate 24 'b'⟩, [childLoc1, childLoc2])]

/-- Tree produced from the example: two leaf children, in mapping order. -/
def tEx : VersionTree := ⟨rootLoc, [⟨childLoc1, []⟩, ⟨childLoc2, []⟩]⟩

/-- Witness for C9 at the concrete two-leaf example: the built tree stores
the root, has exactly two children, and each child is the recursive result
for the corresponding mapped locator, both leaves. -/
theorem versiontree_children_claim_witness :
    tEx.locator = rootLoc ∧ tEx.children.length = 2 ∧
    VersionTree.make 1 childLoc1 (some tdEx) = .ok ⟨childLoc1, []⟩ ∧
    VersionTree.make 1 childLoc2 (some tdEx) = .ok ⟨childLoc2, []⟩ := by
  have hmk : VersionTree.make 2 rootLoc (some tdEx) = .ok tEx := rfl
  have h := (versiontree_children_claim 1 rootLoc tdEx ⟨List.replicate 24 'b'⟩ tEx
    rfl).1 hmk
  refine ⟨h.1, ?_, ?_, ?_⟩
  · rw [h.2.1]
    rfl
  · exact h.2.2 0 (by decide) (by decide)
  · exact h.2.2 1 (by decide) (by decide)
